import Mathlib

/-!
Shallow embedding of `src/charconverters.cpp` / `src/charconverters.hpp`
(namespace `CharConverters`), which convert between a wide (UTF-16 or
UTF-32, per build) code-unit sequence and a UTF-8 byte sequence.

Modelling conventions:
* Code units and bytes are `Nat`; the C++ `static_cast<char8_t>` is `% 0x100`
  and `static_cast<wchar_t>` is `castW win32` (`% 0x10000` on a 16-bit-wchar
  build, `% 0x100000000` otherwise).
* `throw std::invalid_argument(...)` becomes `Except.error` with a
  constructor per distinct throw site.
* The decoder's loop reads `in[i+1] .. in[i+3]` without a bounds check;
  `std::u8string_view::operator[]` past the end is undefined behaviour in
  C++, so such an access is modelled as the distinguished outcome
  `DecErr.oobRead`.
* The header `charconverters.hpp` line 5 defines `WideCharIsUTF16`
  unconditionally, so the encoder's surrogate branches (cpp lines 65-81) are
  present in every build, while the decoder's surrogate re-encoding (cpp
  lines 154-172) is guarded by `#ifdef _WIN32`; the decoder therefore takes
  the build flag `win32` as a parameter.  The `#ifdef WideCharIsUTF32` block
  (cpp lines 94-102) is never compiled since that macro is never defined.
-/

namespace CharConverters

/-- Encoder error values, one per `throw` site in `WideStrToUTF8`
(cpp lines 70 and 75). -/
inductive EncErr where
  | unexpectedLowSurrogate
  | lowSurrogateOutOfRange
  deriving DecidableEq, Repr

/-- Decoder error values: `invalidChar` is the `throw` at cpp line 180;
`oobRead` marks an access `in[i+k]` with `i+k ≥ in.size()` (undefined
behaviour in the C++). -/
inductive DecErr where
  | invalidChar
  | oobRead
  deriving DecidableEq, Repr

/-- The `static_cast<wchar_t>` applied to every value pushed by the decoder:
on a `_WIN32` build `wchar_t` is 16 bits, otherwise 32 bits. -/
def castW (win32 : Bool) (x : Nat) : Nat :=
  if win32 then x % 0x10000 else x % 0x100000000

/-- The encoder's surrogate branches (cpp lines 65-81) are guarded by
`#ifdef WideCharIsUTF16`, and `charconverters.hpp` line 5 defines that macro
unconditionally, so they are enabled in every build. -/
def encoderSurrogateBranchesEnabled (_win32 : Bool) : Bool :=
  true

/-- The decoder's surrogate-pair re-encoding (cpp lines 154-172) is guarded
by `#ifdef _WIN32`, so it is enabled exactly on Windows builds. -/
def decoderSurrogatePairBranchEnabled (win32 : Bool) : Bool :=
  win32

/-- The loop body of `WideStrToUTF8` (cpp lines 15-103), with the mutable
`uint32_t codePoint` threaded explicitly.  Note that after a successful
surrogate pairing the source does not reset `codePoint`; the recursive call
passes the just-computed code point on as the new carry, exactly as the
variable retains it in the C++. -/
def wideStrToUTF8Go (codePoint : Nat) : List Nat → Except EncErr (List Nat)
  | [] => .ok []
  | wchar :: rest =>
    -- Single-byte character (cpp lines 29-31)
    if wchar ≤ 0x7F then
      (wideStrToUTF8Go codePoint rest).map (fun t => wchar % 0x100 :: t)
    -- Two-byte character (cpp lines 33-46)
    else if wchar ≤ 0x7FF then
      (wideStrToUTF8Go codePoint rest).map (fun t =>
        ((wchar >>> 6) ||| 0xC0) % 0x100 ::
        ((wchar &&& 0x3F) ||| 0x80) % 0x100 :: t)
    -- High surrogate (cpp lines 65-67): no emission, set the carry
    else if 0xD800 ≤ wchar ∧ wchar ≤ 0xDBFF then
      wideStrToUTF8Go ((wchar - 0xD800) * 0x400) rest
    -- Low surrogate (cpp lines 68-81)
    else if 0xDC00 ≤ wchar ∧ wchar ≤ 0xDFFF then
      if 0xD800 ≤ codePoint ∧ codePoint ≤ 0xDFFF then
        .error .unexpectedLowSurrogate
      else
        let cp := codePoint + (wchar - 0xDC00) + 0x10000
        if 0x10FFFF < cp then
          .error .lowSurrogateOutOfRange
        else
          (wideStrToUTF8Go cp rest).map (fun t =>
            ((cp >>> 18) ||| 0xF0) % 0x100 ::
            (((cp >>> 12) &&& 0x3F) ||| 0x80) % 0x100 ::
            (((cp >>> 6) &&& 0x3F) ||| 0x80) % 0x100 ::
            ((cp &&& 0x3F) ||| 0x80) % 0x100 :: t)
    -- Three-byte characters (cpp lines 88-92)
    else
      (wideStrToUTF8Go codePoint rest).map (fun t =>
        ((wchar >>> 12) ||| 0xE0) % 0x100 ::
        (((wchar >>> 6) &&& 0x3F) ||| 0x80) % 0x100 ::
        ((wchar &&& 0x3F) ||| 0x80) % 0x100 :: t)

/-- `CharConverters::WideStrToUTF8` (cpp lines 10-105): `codePoint` starts
at 0 (cpp line 14). -/
def WideStrToUTF8 (input : List Nat) : Except EncErr (List Nat) :=
  wideStrToUTF8Go 0 input

/-- The wide unit pushed for a two-byte character (cpp line 139). -/
def twoByteUnit (win32 : Bool) (b1 b2 : Nat) : Nat :=
  castW win32 (((b1 &&& 0x1F) <<< 6) ||| (b2 &&& 0x3F))

/-- The wide unit pushed for a three-byte character (cpp line 148). -/
def threeByteUnit (win32 : Bool) (b1 b2 b3 : Nat) : Nat :=
  castW win32 (((b1 &&& 0x0F) <<< 12) ||| ((b2 &&& 0x3F) <<< 6) |||
    (b3 &&& 0x3F))

/-- The wide units pushed for a four-byte character (cpp lines 154-175):
`u32` is cpp line 159 (and, identically, line 174) with its `<< 24` on the
lead-byte payload; on a `_WIN32` build the surrogate pair of cpp lines
171-172 is pushed (`u32 - 0x10000` is uint32_t subtraction), otherwise the
single unit of cpp line 174. -/
def fourByteUnits (win32 : Bool) (b1 b2 b3 b4 : Nat) : List Nat :=
  let u32 := ((b1 &&& 0x07) <<< 24) ||| ((b2 &&& 0x3F) <<< 12) |||
    ((b3 &&& 0x3F) <<< 6) ||| (b4 &&& 0x3F)
  if decoderSurrogatePairBranchEnabled win32 then
    [castW win32 ((((u32 + 0x100000000 - 0x10000) % 0x100000000) >>> 10)
       + 0xD800),
     castW win32 ((u32 % 0x400) + 0xDC00)]
  else
    [castW win32 u32]

mutual

/-- The loop of `UTF8ToWideStr` (cpp lines 115-183).  The byte cursor `i`
advancing by the run length is modelled by recursing on the corresponding
suffix of the byte list; the reads `in[i+1] .. in[i+3]` of a multi-byte run
are split into the mutual helpers below, and a run whose announced length
exceeds the remaining bytes reads past the end of the `u8string_view`,
which yields `DecErr.oobRead`. -/
def uTF8ToWideStrGo (win32 : Bool) : List Nat → Except DecErr (List Nat)
  | [] => .ok []
  | b1 :: rest =>
    -- Single-byte character (cpp lines 117-120)
    if b1 &&& 0x80 = 0 then
      (uTF8ToWideStrGo win32 rest).map (fun t => castW win32 b1 :: t)
    -- Two-byte character (cpp lines 122-141)
    else if b1 &&& 0xE0 = 0xC0 then uTF8ToWideStrTwo win32 b1 rest
    -- Three-byte character (cpp lines 143-150)
    else if b1 &&& 0xF0 = 0xE0 then uTF8ToWideStrThree win32 b1 rest
    -- Four-byte character (cpp lines 152-177)
    else if b1 &&& 0xF8 = 0xF0 then uTF8ToWideStrFour win32 b1 rest
    -- This is not a UTF8 character (cpp lines 179-181)
    else .error .invalidChar

/-- Rest of the two-byte branch: reads `in[i+1]` (cpp line 139). -/
def uTF8ToWideStrTwo (win32 : Bool) (b1 : Nat) :
    List Nat → Except DecErr (List Nat)
  | b2 :: rest2 =>
    (uTF8ToWideStrGo win32 rest2).map (fun t => twoByteUnit win32 b1 b2 :: t)
  | [] => .error .oobRead

/-- Rest of the three-byte branch: reads `in[i+1]`, `in[i+2]`
(cpp line 148). -/
def uTF8ToWideStrThree (win32 : Bool) (b1 : Nat) :
    List Nat → Except DecErr (List Nat)
  | b2 :: b3 :: rest3 =>
    (uTF8ToWideStrGo win32 rest3).map (fun t =>
      threeByteUnit win32 b1 b2 b3 :: t)
  | _ => .error .oobRead

/-- Rest of the four-byte branch: reads `in[i+1]` .. `in[i+3]`
(cpp lines 159-174). -/
def uTF8ToWideStrFour (win32 : Bool) (b1 : Nat) :
    List Nat → Except DecErr (List Nat)
  | b2 :: b3 :: b4 :: rest4 =>
    (uTF8ToWideStrGo win32 rest4).map (fun t =>
      fourByteUnits win32 b1 b2 b3 b4 ++ t)
  | _ => .error .oobRead

end

/-- `CharConverters::UTF8ToWideStr` (cpp lines 107-185), parameterised by
the build flag `_WIN32` that selects the 16-bit surrogate re-encoding. -/
def UTF8ToWideStr (win32 : Bool) (input : List Nat) : Except DecErr (List Nat) :=
  uTF8ToWideStrGo win32 input

/-- The standard wide (UTF-16, surrogate-pair) encoding of a scalar value,
as the round-trip property of the spec (its §8) states it: one unit for a
BMP value, a high/low surrogate pair above U+FFFF.  This follows the spec's
words, for comparison with the source functions above. -/
def wideEncodingOf (cp : Nat) : List Nat :=
  if cp ≤ 0xFFFF then [cp]
  else [((cp - 0x10000) >>> 10) + 0xD800, ((cp - 0x10000) % 0x400) + 0xDC00]

end CharConverters

open CharConverters

/-- C10: both conversions map the empty input to the empty output, with no
error, in every build mode. -/
theorem empty_input_ok :
    WideStrToUTF8 [] = .ok [] ∧ UTF8ToWideStr true [] = .ok [] ∧
      UTF8ToWideStr false [] = .ok [] :=
  ⟨rfl, rfl, rfl⟩

/-- C8: in 16-bit mode, encoding the surrogate pair `[0xD801, 0xDC37]`
(U+10437) yields the UTF-8 bytes `F0 90 90 B7`, and decoding those bytes
yields `[0xD801, 0xDC37]` back. -/
theorem surrogate_pair_example_roundtrip :
    WideStrToUTF8 [0xD801, 0xDC37] = .ok [0xF0, 0x90, 0x90, 0xB7] ∧
      UTF8ToWideStr true [0xF0, 0x90, 0x90, 0xB7] = .ok [0xD801, 0xDC37] :=
  ⟨rfl, rfl⟩

/-- Any value below 0x80 has a clear top bit, so the decoder takes its
single-byte branch on it. -/
theorem land_0x80_eq_zero_of_lt : ∀ v < 128, v &&& 0x80 = 0 := by decide

/-- The encoder loop maps a list of ASCII units to themselves, for any value
of the carry. -/
theorem wideStrToUTF8Go_ascii (l : List Nat) (c : Nat)
    (h : ∀ v ∈ l, v ≤ 0x7F) : wideStrToUTF8Go c l = .ok l := by
  induction l generalizing c with
  | nil => rfl
  | cons v t ih =>
    have hv : v ≤ 0x7F := h v (List.mem_cons_self v t)
    have ht : ∀ w ∈ t, w ≤ 0x7F := fun w hw => h w (List.mem_cons_of_mem v hw)
    have hmod : v % 0x100 = v := Nat.mod_eq_of_lt (by omega)
    rw [wideStrToUTF8Go, if_pos hv, ih c ht]
    simp [Except.map, hmod]

/-- The decoder loop maps a list of ASCII bytes to themselves, in either
build mode. -/
theorem uTF8ToWideStrGo_ascii (w : Bool) (l : List Nat)
    (h : ∀ v ∈ l, v ≤ 0x7F) : uTF8ToWideStrGo w l = .ok l := by
  induction l with
  | nil => rfl
  | cons v t ih =>
    have hv : v ≤ 0x7F := h v (List.mem_cons_self v t)
    have ht : ∀ b ∈ t, b ≤ 0x7F := fun b hb => h b (List.mem_cons_of_mem v hb)
    have hand : v &&& 0x80 = 0 := land_0x80_eq_zero_of_lt v (by omega)
    have hcast : castW w v = v := by
      cases w <;> simp [castW] <;> omega
    rw [uTF8ToWideStrGo, if_pos hand, ih ht]
    simp [Except.map, hcast]

/-- C9: both conversions are the identity on sequences of ASCII values
(each value at most 0x7F): the encoder emits each unit as the single byte of
the same value, and the decoder emits each byte as the single unit of the
same value, in either build mode. -/
theorem ascii_identity (w : Bool) (l : List Nat) (h : ∀ v ∈ l, v ≤ 0x7F) :
    WideStrToUTF8 l = .ok l ∧ UTF8ToWideStr w l = .ok l :=
  ⟨wideStrToUTF8Go_ascii l 0 h, uTF8ToWideStrGo_ascii w l h⟩

/-- Witness for C9 at the concrete ASCII list `[0x41, 0x7F, 0x00]`. -/
theorem ascii_identity_witness :
    WideStrToUTF8 [0x41, 0x7F, 0x00] = .ok [0x41, 0x7F, 0x00] ∧
      UTF8ToWideStr true [0x41, 0x7F, 0x00] = .ok [0x41, 0x7F, 0x00] :=
  ascii_identity true [0x41, 0x7F, 0x00] (by decide)

/-- C7: a byte matching none of the four lead-byte classes (`0xxxxxxx`,
`110xxxxx`, `1110xxxx`, `11110xxx`) at the head of the remaining input makes
the decoder fail with the invalid-lead-byte error, emitting nothing, in
either build mode. -/
theorem invalid_lead_byte_rejected (w : Bool) (b : Nat) (rest : List Nat)
    (_hb : b < 0x100) (h1 : ¬ b &&& 0x80 = 0) (h2 : ¬ b &&& 0xE0 = 0xC0)
    (h3 : ¬ b &&& 0xF0 = 0xE0) (h4 : ¬ b &&& 0xF8 = 0xF0) :
    UTF8ToWideStr w (b :: rest) = .error .invalidChar := by
  show uTF8ToWideStrGo w (b :: rest) = .error .invalidChar
  rw [uTF8ToWideStrGo, if_neg h1, if_neg h2, if_neg h3, if_neg h4]

/-- Witness for C7: the bare continuation byte 0x80 is rejected. -/
theorem invalid_lead_byte_rejected_witness :
    UTF8ToWideStr true [0x80] = .error .invalidChar :=
  invalid_lead_byte_rejected true 0x80 [] (by decide) (by decide) (by decide)
    (by decide) (by decide)

/-- C1: the round-trip fails on the code.  For the code point U+1D800 the
encoder throws: the carry set by the high surrogate 0xD836 is
`(0xD836 - 0xD800) * 0x400 = 0xD800`, which the low-surrogate branch's check
`codePoint >= 0xD800 && codePoint <= 0xDFFF` (cpp line 69) mistakes for an
unpaired low surrogate.  For the code point U+40000 the encoder produces the
correct bytes `F1 80 80 80`, but the decoder's `<< 24` (cpp line 159)
combines them into 0x1000000 instead of 0x40000, and after the surrogate
formula and the 16-bit `wchar_t` cast the output is `[0x17C0, 0xDC00]`
instead of the original pair `[0xD8C0, 0xDC00]`. -/
theorem roundtrip_fails_on_code :
    WideStrToUTF8 (wideEncodingOf 0x1D800) = .error .unexpectedLowSurrogate ∧
    wideEncodingOf 0x40000 = [0xD8C0, 0xDC00] ∧
    WideStrToUTF8 [0xD8C0, 0xDC00] = .ok [0xF1, 0x80, 0x80, 0x80] ∧
    UTF8ToWideStr true [0xF1, 0x80, 0x80, 0x80] = .ok [0x17C0, 0xDC00] ∧
    [0x17C0, 0xDC00] ≠ wideEncodingOf 0x40000 :=
  ⟨rfl, rfl, rfl, rfl, by decide⟩

/-- C2: on the valid 4-byte run `F1 80 80 80` the decoder does not combine
the 3+6+6+6 payload bits into `cp = (b1 & 0x07) << 18 | ...` (which would be
0x40000 and give the surrogate pair `[0xD8C0, 0xDC00]`): cpp line 159 shifts
the lead-byte payload by 24, giving `u32 = 0x1000000`, and in 16-bit mode the
emitted units are `[0x17C0, 0xDC00]`. -/
theorem four_byte_decode_diverges :
    UTF8ToWideStr true [0xF1, 0x80, 0x80, 0x80] = .ok [0x17C0, 0xDC00] ∧
    (((0xF1 &&& 0x07) <<< 18) ||| ((0x80 &&& 0x3F) <<< 12) |||
      ((0x80 &&& 0x3F) <<< 6) ||| (0x80 &&& 0x3F)) = 0x40000 ∧
    [0x17C0, 0xDC00] ≠
      [((0x40000 - 0x10000) >>> 10) + 0xD800,
       ((0x40000 - 0x10000) % 0x400) + 0xDC00] :=
  ⟨rfl, by decide, by decide⟩

/-- C3: encoding the lone low surrogate `[0xDC00]` does not fail.  The
initial carry is 0, which the check at cpp line 69 does not treat as "no
pending high surrogate", so the encoder computes `0 + 0 + 0x10000` and
emits the UTF-8 bytes of U+10000 instead of throwing. -/
theorem lone_low_surrogate_not_rejected :
    WideStrToUTF8 [0xDC00] = .ok [0xF0, 0x90, 0x80, 0x80] :=
  rfl

/-- C4: the carry is not cleared after a successful surrogate pairing.  The
two inputs below each end with the same unit 0xDC00 after a completed pair,
yet the bytes emitted for that trailing unit differ (`F0 A0 90 B7` vs
`F0 A0 80 80`), because `codePoint` still holds the previous pair's code
point when the trailing low surrogate is processed. -/
theorem carry_not_cleared_after_pair :
    WideStrToUTF8 [0xD801, 0xDC37, 0xDC00] =
      .ok [0xF0, 0x90, 0x90, 0xB7, 0xF0, 0xA0, 0x90, 0xB7] ∧
    WideStrToUTF8 [0xD800, 0xDC00, 0xDC00] =
      .ok [0xF0, 0x90, 0x80, 0x80, 0xF0, 0xA0, 0x80, 0x80] ∧
    List.drop 4 [0xF0, 0x90, 0x90, 0xB7, 0xF0, 0xA0, 0x90, 0xB7] ≠
      List.drop 4 [0xF0, 0x90, 0x80, 0x80, 0xF0, 0xA0, 0x80, 0x80] :=
  ⟨rfl, rfl, by decide⟩

/-- C5: the two width gates are not one configuration.  The encoder's
surrogate branches are enabled in every build (`#define WideCharIsUTF16` at
hpp line 5 is unconditional) while the decoder's surrogate re-encoding is
enabled only under `_WIN32`; on a non-Windows build (`win32 = false`) the
encoder still pairs `[0xD801, 0xDC37]` into the 4-byte run `F0 90 90 B7`,
but the decoder turns those bytes into the single unit 0x10437. -/
theorem width_config_flags_disagree :
    encoderSurrogateBranchesEnabled false ≠
      decoderSurrogatePairBranchEnabled false ∧
    WideStrToUTF8 [0xD801, 0xDC37] = .ok [0xF0, 0x90, 0x90, 0xB7] ∧
    UTF8ToWideStr false [0xF0, 0x90, 0x90, 0xB7] = .ok [0x10437] :=
  ⟨by decide, rfl, rfl⟩

/-- C6: the decoder reads past the end of the input.  On the one-byte input
`[0xC3]` the two-byte branch reads `in[1]` (cpp line 139), and on
`[0xF0, 0x90]` the four-byte branch reads `in[2]` and `in[3]`
(cpp line 159), all past the end of the sequence; the accesses are modelled
by the distinguished outcome `DecErr.oobRead`, in either build mode. -/
theorem truncated_input_oob_read :
    UTF8ToWideStr true [0xC3] = .error .oobRead ∧
    UTF8ToWideStr true [0xF0, 0x90] = .error .oobRead ∧
    UTF8ToWideStr false [0xC3] = .error .oobRead ∧
    UTF8ToWideStr false [0xF0, 0x90] = .error .oobRead :=
  ⟨rfl, rfl, rfl, rfl⟩
